import Mathlib

/-!
Shallow embedding of the client-side screens of the Kodr freelance-marketplace
web application (pages `Messages`, `Browse`, `Projects`).

Each event handler of the source is embedded as a pure function from its
inputs, the backend's response, and the screen's local state to the new local
state together with the list of observable effects it performs (backend
requests, console logs, toasts).  The managed backend is modelled by passing
the response of each remote call as an argument; declarative queries
(`.eq(...)`, `.order(...)`) are modelled by filtering and sorting the queried
table.
-/

namespace Kodr

/-- An error value returned by the backend, carrying the Postgres error code
(the source inspects `error.code`). -/
structure DbError where
  code : String
  deriving Repr, DecidableEq

/-- An observable effect performed by a handler: a backend request, a console
log, or a toast shown to the user. -/
inductive Effect where
  | selectRequest (table : String)
  | insertRequest (table : String)
  | consoleError (context : String)
  | toastError (msg : String)
  | toastSuccess (msg : String)
  deriving Repr, DecidableEq

/-- Whether an effect is a toast (of either kind). -/
def Effect.isToast : Effect → Bool
  | .toastError _ => true
  | .toastSuccess _ => true
  | _ => false

/-- Whether an effect is an insert request. -/
def Effect.isInsert : Effect → Bool
  | .insertRequest _ => true
  | _ => false

/-- Whether an effect is a console log. -/
def Effect.isConsole : Effect → Bool
  | .consoleError _ => true
  | _ => false

/-- The toasts among a handler's effects, in order. -/
def toastsOf (effs : List Effect) : List Effect := effs.filter Effect.isToast

/-- How many insert requests a handler issued. -/
def insertCount (effs : List Effect) : Nat := (effs.filter Effect.isInsert).length

/-- How many backend requests (selects and inserts) a handler issued. -/
def requestCount (effs : List Effect) : Nat :=
  (effs.filter fun e => e.isInsert || (match e with | .selectRequest _ => true | _ => false)).length

/-! ## JavaScript string primitives used by the source -/

/-- The characters stripped by JavaScript's `String.prototype.trim`
(ECMAScript WhiteSpace and LineTerminator). -/
def jsIsWhitespace (c : Char) : Bool :=
  c == ' ' || c == '\t' || c == '\n' ||
  c.val == 13 || c.val == 11 || c.val == 12 ||
  c.val == 0xa0 || c.val == 0x1680 || (0x2000 ≤ c.val && c.val ≤ 0x200a) ||
  c.val == 0x2028 || c.val == 0x2029 || c.val == 0x202f || c.val == 0x205f ||
  c.val == 0x3000 || c.val == 0xfeff

/-- JavaScript `String.prototype.trim`: strip leading and trailing whitespace. -/
def jsTrim (s : String) : String :=
  ⟨((s.data.dropWhile jsIsWhitespace).reverse.dropWhile jsIsWhitespace).reverse⟩

/-- JavaScript `String.prototype.toLowerCase` (on the characters the source
cares about this agrees with `Char.toLower`). -/
def jsToLower (s : String) : String := ⟨s.data.map Char.toLower⟩

/-- Contiguous-sublist test on lists (used to model substring containment). -/
def isInfixList [BEq α] (needle : List α) : List α → Bool
  | [] => needle.isEmpty
  | x :: xs => needle.isPrefixOf (x :: xs) || isInfixList needle xs

/-- JavaScript `s.includes(sub)`: substring containment. -/
def jsIncludes (s sub : String) : Bool := isInfixList sub.data s.data

/-- A string that is entirely whitespace trims to the empty string. -/
theorem jsTrim_eq_empty {s : String} (h : s.data.all jsIsWhitespace = true) :
    jsTrim s = "" := by
  have h' : ∀ x ∈ s.data, jsIsWhitespace x := by
    intro x hx; exact List.all_eq_true.mp h x hx
  have h1 : s.data.dropWhile jsIsWhitespace = [] :=
    List.dropWhile_eq_nil_iff.mpr h'
  simp [jsTrim, h1]

/-! ## Declarative `ORDER BY` modelled by insertion sort -/

/-- Insert an element into a list before the first element it is `le` to
(the insertion step of the sort modelling the backend's `ORDER BY`). -/
def insertBy (le : α → α → Bool) (a : α) : List α → List α
  | [] => [a]
  | x :: xs => if le a x then a :: x :: xs else x :: insertBy le a xs

/-- Insertion sort with comparison `le`, modelling a declarative `ORDER BY`. -/
def sortBy (le : α → α → Bool) : List α → List α
  | [] => []
  | x :: xs => insertBy le x (sortBy le xs)

/-- Adjacent-pairs sortedness test for comparison `le`. -/
def isSortedBy (le : α → α → Bool) : List α → Bool
  | [] => true
  | [_] => true
  | a :: b :: rest => le a b && isSortedBy le (b :: rest)

theorem mem_insertBy (le : α → α → Bool) (a b : α) (l : List α) :
    b ∈ insertBy le a l ↔ b = a ∨ b ∈ l := by
  induction l with
  | nil => simp [insertBy]
  | cons x xs ih =>
      by_cases h : le a x = true
      · simp [insertBy, h]
      · simp only [insertBy, if_neg h, List.mem_cons, ih]
        tauto

theorem mem_sortBy (le : α → α → Bool) (b : α) (l : List α) :
    b ∈ sortBy le l ↔ b ∈ l := by
  induction l with
  | nil => simp [sortBy]
  | cons x xs ih => simp [sortBy, mem_insertBy, ih]

/-- `a` is `le` the head of `l` (vacuously true for the empty list). -/
def leHead (le : α → α → Bool) (a : α) : List α → Bool
  | [] => true
  | x :: _ => le a x

theorem isSortedBy_cons (le : α → α → Bool) (a : α) (l : List α) :
    isSortedBy le (a :: l) = (leHead le a l && isSortedBy le l) := by
  cases l <;> simp [isSortedBy, leHead]

theorem isSortedBy_insertBy (le : α → α → Bool)
    (htot : ∀ a b, le a b = true ∨ le b a = true) (a : α) (l : List α)
    (hl : isSortedBy le l = true) :
    isSortedBy le (insertBy le a l) = true := by
  induction l with
  | nil => simp [insertBy, isSortedBy]
  | cons x xs ih =>
      rw [isSortedBy_cons, Bool.and_eq_true] at hl
      obtain ⟨hhead, hxs⟩ := hl
      by_cases h : le a x = true
      · rw [insertBy, if_pos h, isSortedBy_cons, Bool.and_eq_true]
        refine ⟨by simp [leHead, h], ?_⟩
        rw [isSortedBy_cons, Bool.and_eq_true]
        exact ⟨hhead, hxs⟩
      · rw [insertBy, if_neg h, isSortedBy_cons, Bool.and_eq_true]
        have hxa : le x a = true := (htot a x).resolve_left h
        refine ⟨?_, ih hxs⟩
        cases xs with
        | nil => simp [insertBy, leHead, hxa]
        | cons z zs =>
            by_cases hz : le a z = true
            · simp [insertBy, hz, leHead, hxa]
            · simp only [insertBy, if_neg hz, leHead]
              simpa [leHead] using hhead

theorem isSortedBy_sortBy (le : α → α → Bool)
    (htot : ∀ a b, le a b = true ∨ le b a = true) (l : List α) :
    isSortedBy le (sortBy le l) = true := by
  induction l with
  | nil => simp [sortBy, isSortedBy]
  | cons x xs ih => exact isSortedBy_insertBy le htot x (sortBy le xs) ih

theorem isSortedBy_append_singleton (le : α → α → Bool) (l : List α) (m : α)
    (hl : isSortedBy le l = true) (hm : ∀ x ∈ l, le x m = true) :
    isSortedBy le (l ++ [m]) = true := by
  induction l with
  | nil => simp [isSortedBy]
  | cons x xs ih =>
      rw [isSortedBy_cons, Bool.and_eq_true] at hl
      obtain ⟨hhead, hxs⟩ := hl
      rw [List.cons_append, isSortedBy_cons, Bool.and_eq_true]
      refine ⟨?_, ih hxs (fun z hz => hm z (List.mem_cons_of_mem x hz))⟩
      cases xs with
      | nil => simp [leHead, hm x (List.mem_cons_self x [])]
      | cons z zs => simpa [leHead] using hhead

/-! ## Messages page (`src/pages/Messages.tsx`) -/

/-- The sender display fields joined onto a message
(`profiles(full_name, avatar_url)`). -/
structure SenderProfile where
  full_name : String
  avatar_url : Option String
  deriving Repr, DecidableEq

/-- A row of the `messages` table (as delivered in a realtime payload). -/
structure MessageRow where
  id : String
  conversation_id : String
  sender_id : String
  content : String
  created_at : Nat
  deriving Repr, DecidableEq

/-- A `messages` row together with its joined sender display fields: the
`Message` type of `Messages.tsx`. -/
structure Message where
  id : String
  conversation_id : String
  sender_id : String
  content : String
  created_at : Nat
  sender : SenderProfile
  deriving Repr, DecidableEq

/-- The profile fields joined onto a conversation participant. -/
structure ParticipantProfile where
  full_name : String
  avatar_url : Option String
  role : String
  deriving Repr, DecidableEq

/-- A `conversation_participants` row with its joined profile. -/
structure Participant where
  user_id : String
  profiles : ParticipantProfile
  deriving Repr, DecidableEq

/-- A `conversations` row with joined participants and preview messages: the
`Conversation` type of `Messages.tsx`. -/
structure Conversation where
  id : String
  updated_at : Nat
  conversation_participants : List Participant
  messages : List Message
  deriving Repr, DecidableEq

/-- The local React state of the Messages page. -/
structure MessagesState where
  conversations : List Conversation
  selectedConversation : Option String
  messages : List Message
  newMessage : String
  loading : Bool
  deriving Repr, DecidableEq

/-- `fetchConversations`: guarded on a signed-in user; on failure, log and
toast; on success, keep only the conversations whose participant list contains
the current user's id, store them, and clear the loading flag. -/
def fetchConversations (user : Option String)
    (resp : Except DbError (List Conversation)) (st : MessagesState) :
    MessagesState × List Effect :=
  match user with
  | none => (st, [])
  | some userId =>
    match resp with
    | .error _ =>
        (st, [.selectRequest "conversations", .consoleError "Error fetching conversations",
              .toastError "Failed to load conversations"])
    | .ok data =>
        let userConversations := data.filter fun conv =>
          conv.conversation_participants.any fun p => p.user_id == userId
        ({ st with conversations := userConversations, loading := false },
         [.selectRequest "conversations"])

/-- `fetchMessage`: re-fetch a single message with sender fields; on failure,
log only; on success, append the row to the local message list. -/
def fetchMessage (messageId : String) (resp : Except DbError Message)
    (st : MessagesState) : MessagesState × List Effect :=
  match resp with
  | .error _ =>
      (st, [.selectRequest "messages", .consoleError "Error fetching message"])
  | .ok data =>
      ({ st with messages := st.messages ++ [data] }, [.selectRequest "messages"])

/-- The `messages-channel` INSERT handler: if the inserted row's
`conversation_id` equals the currently selected conversation, re-fetch the
complete message; otherwise do nothing. -/
def onMessageInsert (payloadNew : MessageRow) (fetchResp : Except DbError Message)
    (st : MessagesState) : MessagesState × List Effect :=
  if (some payloadNew.conversation_id : Option String) == st.selectedConversation then
    fetchMessage payloadNew.id fetchResp st
  else
    (st, [])

/-- Ascending order on `created_at`, the comparison of the
`.order('created_at', { ascending: true })` clause. -/
def msgLe (a b : Message) : Bool := decide (a.created_at ≤ b.created_at)

/-- The declarative query issued by `loadMessages`: the `messages` rows of one
conversation, sorted ascending by `created_at`. -/
def queryMessages (table : List Message) (conversationId : String) : List Message :=
  sortBy msgLe (table.filter fun m => m.conversation_id == conversationId)

/-- `loadMessages`: on failure, log and toast; on success, replace the local
message list with the fetched rows. -/
def loadMessages (conversationId : String)
    (resp : Except DbError (List Message)) (st : MessagesState) :
    MessagesState × List Effect :=
  match resp with
  | .error _ =>
      (st, [.selectRequest "messages", .consoleError "Error loading messages",
            .toastError "Failed to load messages"])
  | .ok data =>
      ({ st with messages := data }, [.selectRequest "messages"])

/-- `sendMessage`: a no-op unless the trimmed input is non-empty, a
conversation is selected, and a user is signed in; then insert the trimmed
content; on failure, log and toast; on success, clear the input field. -/
def sendMessage (user : Option String) (insertResp : Option DbError)
    (st : MessagesState) : MessagesState × List Effect :=
  if jsTrim st.newMessage == "" || st.selectedConversation.isNone || user.isNone then
    (st, [])
  else
    match insertResp with
    | some _ =>
        (st, [.insertRequest "messages", .consoleError "Error sending message",
              .toastError "Failed to send message"])
    | none =>
        ({ st with newMessage := "" }, [.insertRequest "messages"])

/-- `selectConversation`: record the selection, then load that conversation's
messages. -/
def selectConversation (conversationId : String)
    (resp : Except DbError (List Message)) (st : MessagesState) :
    MessagesState × List Effect :=
  loadMessages conversationId resp { st with selectedConversation := some conversationId }

/-! ## Browse page (coders and teams) -/

/-- A `profiles` row (the fields the Browse page reads). -/
structure Profile where
  id : String
  full_name : String
  bio : Option String
  location : Option String
  role : String
  xp : Nat
  followers_count : Nat
  deriving Repr, DecidableEq

/-- A `teams` row with joined owner (the fields the Browse page reads). -/
structure Team where
  id : String
  name : String
  description : Option String
  created_at : Nat
  owner : Profile
  deriving Repr, DecidableEq

/-- The local React state of the Browse page. -/
structure BrowseState where
  coders : List Profile
  teams : List Team
  loading : Bool
  searchTerm : String
  skillFilter : String
  deriving Repr, DecidableEq

/-- `fetchCoders`: on failure, log only (state untouched); on success, store
the returned coder profiles. -/
def fetchCoders (resp : Except DbError (List Profile)) (st : BrowseState) :
    BrowseState × List Effect :=
  match resp with
  | .error _ =>
      (st, [.selectRequest "profiles", .consoleError "Error fetching coders"])
  | .ok data =>
      ({ st with coders := data }, [.selectRequest "profiles"])

/-- `fetchTeams`: on failure, log only; either way the `finally` block clears
the loading flag. -/
def fetchTeams (resp : Except DbError (List Team)) (st : BrowseState) :
    BrowseState × List Effect :=
  match resp with
  | .error _ =>
      ({ st with loading := false },
       [.selectRequest "teams", .consoleError "Error fetching teams"])
  | .ok data =>
      ({ st with teams := data, loading := false }, [.selectRequest "teams"])

/-- `handleFollow`: guarded on a signed-in user; insert a `follows` row; on
failure, log only; on success, refresh the coder list. -/
def handleFollow (user : Option String) (insertResp : Option DbError) :
    List Effect :=
  match user with
  | none => []
  | some _ =>
    match insertResp with
    | some _ => [.insertRequest "follows", .consoleError "Error following user"]
    | none => [.insertRequest "follows", .selectRequest "profiles"]

/-- The search predicate of the coders tab: an empty search term matches
everything, otherwise match case-insensitively against name, bio, or
location (a missing bio or location matches nothing). -/
def coderMatches (searchTerm : String) (c : Profile) : Bool :=
  searchTerm == "" ||
  jsIncludes (jsToLower c.full_name) (jsToLower searchTerm) ||
  (match c.bio with
   | some b => jsIncludes (jsToLower b) (jsToLower searchTerm)
   | none => false) ||
  (match c.location with
   | some l => jsIncludes (jsToLower l) (jsToLower searchTerm)
   | none => false)

/-- The cards rendered on the coders tab: the stored coders filtered by the
search term (the skill filter is never consulted). -/
def displayedCoders (st : BrowseState) : List Profile :=
  st.coders.filter (coderMatches st.searchTerm)

/-- The search predicate of the teams tab: an empty search term matches
everything, otherwise match case-insensitively against name or description. -/
def teamMatches (searchTerm : String) (t : Team) : Bool :=
  searchTerm == "" ||
  jsIncludes (jsToLower t.name) (jsToLower searchTerm) ||
  (match t.description with
   | some d => jsIncludes (jsToLower d) (jsToLower searchTerm)
   | none => false)

/-- The cards rendered on the teams tab: the stored teams filtered by the
search term (the skill filter is never consulted). -/
def displayedTeams (st : BrowseState) : List Team :=
  st.teams.filter (teamMatches st.searchTerm)

/-! ## Projects page -/

/-- A `projects` row (the fields the Projects page reads). -/
structure ProjectRow where
  id : String
  title : String
  status : String
  hirer_id : String
  created_at : Nat
  deriving Repr, DecidableEq

/-- A `project_applications` row. -/
structure ApplicationRow where
  id : String
  project_id : String
  coder_id : String
  message : String
  status : String
  created_at : Nat
  deriving Repr, DecidableEq

/-- The local React state of the Projects page. -/
structure ProjectsState where
  projects : List ProjectRow
  myProjects : List ProjectRow
  applications : List ApplicationRow
  loading : Bool
  deriving Repr, DecidableEq

/-- Descending order on `created_at`, the comparison of the
`.order('created_at', { ascending: false })` clause. -/
def createdDesc (a b : ProjectRow) : Bool := decide (b.created_at ≤ a.created_at)

/-- The declarative query issued by the browse tab's `fetchProjects`:
`projects` rows with `status = 'open'`, newest first. -/
def queryOpenProjects (table : List ProjectRow) : List ProjectRow :=
  sortBy createdDesc (table.filter fun p => p.status == "open")

/-- `fetchProjects`: on failure, log and toast; on success, store the rows and
clear the loading flag. -/
def fetchProjects (resp : Except DbError (List ProjectRow)) (st : ProjectsState) :
    ProjectsState × List Effect :=
  match resp with
  | .error _ =>
      (st, [.selectRequest "projects", .consoleError "Error fetching projects",
            .toastError "Failed to load projects"])
  | .ok data =>
      ({ st with projects := data, loading := false }, [.selectRequest "projects"])

/-- `fetchMyProjects`: guarded on a signed-in user; on failure, log only. -/
def fetchMyProjects (user : Option String)
    (resp : Except DbError (List ProjectRow)) (st : ProjectsState) :
    ProjectsState × List Effect :=
  match user with
  | none => (st, [])
  | some _ =>
    match resp with
    | .error _ =>
        (st, [.selectRequest "projects", .consoleError "Error fetching my projects"])
    | .ok data =>
        ({ st with myProjects := data }, [.selectRequest "projects"])

/-- `handleApplyToProject`: guarded on a signed-in user; insert one
`project_applications` row; a failure with code `23505` toasts the specific
"already applied" message, any other failure toasts a generic message; on
success, toast success and refresh the project list. -/
def handleApplyToProject (user : Option String) (insertResp : Option DbError) :
    List Effect :=
  match user with
  | none => []
  | some _ =>
    match insertResp with
    | some e =>
        if e.code == "23505" then
          [.insertRequest "project_applications",
           .toastError "You have already applied to this project"]
        else
          [.insertRequest "project_applications",
           .toastError "Failed to apply to project"]
    | none =>
        [.insertRequest "project_applications",
         .toastSuccess "Application submitted successfully",
         .selectRequest "projects"]

/-- `fetchMyApplications`: guarded on a signed-in user; on failure, log only. -/
def fetchMyApplications (user : Option String)
    (resp : Except DbError (List ApplicationRow)) (st : ProjectsState) :
    ProjectsState × List Effect :=
  match user with
  | none => (st, [])
  | some _ =>
    match resp with
    | .error _ =>
        (st, [.selectRequest "project_applications",
              .consoleError "Error fetching applications"])
    | .ok data =>
        ({ st with applications := data }, [.selectRequest "project_applications"])

/-- `fetchProjectApplications`: returns the fetched rows to its caller; on
failure, log and return the empty list (no error value is propagated). -/
def fetchProjectApplications (projectId : String)
    (resp : Except DbError (List ApplicationRow)) :
    List ApplicationRow × List Effect :=
  match resp with
  | .error _ =>
      ([], [.selectRequest "project_applications",
            .consoleError "Error fetching project applications"])
  | .ok data =>
      (data, [.selectRequest "project_applications"])

/-! ## Sample data used by witnesses and counterexamples -/

/-- A sample message in conversation `c1`, created at time 1. -/
def msgA : Message :=
  { id := "m1", conversation_id := "c1", sender_id := "alice", content := "hi"
    created_at := 1, sender := { full_name := "Alice", avatar_url := none } }

/-- A sample message in conversation `c1`, created at time 2. -/
def msgB : Message :=
  { id := "m2", conversation_id := "c1", sender_id := "bob", content := "yo"
    created_at := 2, sender := { full_name := "Bob", avatar_url := none } }

/-- The raw `messages` row of `msgA`, as a realtime payload delivers it. -/
def rowA : MessageRow :=
  { id := "m1", conversation_id := "c1", sender_id := "alice", content := "hi"
    created_at := 1 }

/-- An initial Messages-page state. -/
def st0 : MessagesState :=
  { conversations := [], selectedConversation := none, messages := []
    newMessage := "", loading := true }

/-- A Messages-page state with conversation `c1` open and both sample
messages loaded in order. -/
def stA : MessagesState :=
  { st0 with selectedConversation := some "c1", messages := [msgA, msgB] }

/-- A Messages-page state with conversation `c1` open, only `msgA` loaded,
and a non-empty draft in the input field. -/
def stMsg : MessagesState :=
  { st0 with
    selectedConversation := some "c1"
    messages := [msgA]
    newMessage := "hello" }

/-- An initial Browse-page state. -/
def bst0 : BrowseState :=
  { coders := [], teams := [], loading := true, searchTerm := "", skillFilter := "all" }

/-- An initial Projects-page state. -/
def pst0 : ProjectsState :=
  { projects := [], myProjects := [], applications := [], loading := true }

/-- A sample open project. -/
def projOpen : ProjectRow :=
  { id := "p1", title := "Build an app", status := "open", hirer_id := "h1"
    created_at := 5 }

/-- A sample completed project. -/
def projDone : ProjectRow :=
  { id := "p2", title := "Old job", status := "completed", hirer_id := "h1"
    created_at := 3 }

/-! ## Claims -/

/-- C1: for every list of conversation rows returned by the backend and every
signed-in user, the stored conversation list contains a conversation if and
only if the user's id appears among that conversation's participants'
`user_id`s. -/
theorem fetchConversations_mem_iff (u : String) (rows : List Conversation)
    (st : MessagesState) (c : Conversation) :
    c ∈ (fetchConversations (some u) (.ok rows) st).1.conversations ↔
      c ∈ rows ∧ u ∈ c.conversation_participants.map Participant.user_id := by
  show c ∈ rows.filter _ ↔ _
  rw [List.mem_filter]
  simp only [List.any_eq_true, beq_iff_eq, List.mem_map]

/-- C2: applying to a project whose insert fails with uniqueness-violation
code `23505` shows exactly the specific "already applied" toast; any other
failure shows exactly the generic toast; in either case no success toast is
shown and exactly one insert request is issued. -/
theorem handleApplyToProject_duplicate (u : String) (e : DbError) :
    (e.code = "23505" →
      toastsOf (handleApplyToProject (some u) (some e)) =
        [Effect.toastError "You have already applied to this project"]) ∧
    (e.code ≠ "23505" →
      toastsOf (handleApplyToProject (some u) (some e)) =
        [Effect.toastError "Failed to apply to project"]) ∧
    (∀ m, Effect.toastSuccess m ∉ handleApplyToProject (some u) (some e)) ∧
    insertCount (handleApplyToProject (some u) (some e)) = 1 := by
  by_cases h : e.code = "23505" <;>
    simp [handleApplyToProject, h, toastsOf, insertCount, Effect.isToast, Effect.isInsert]

/-- Witness for C2 at codes `23505` and `500`. -/
theorem handleApplyToProject_duplicate_witness :
    toastsOf (handleApplyToProject (some "coder-1") (some ⟨"23505"⟩)) =
      [Effect.toastError "You have already applied to this project"] ∧
    toastsOf (handleApplyToProject (some "coder-1") (some ⟨"500"⟩)) =
      [Effect.toastError "Failed to apply to project"] ∧
    insertCount (handleApplyToProject (some "coder-1") (some ⟨"23505"⟩)) = 1 :=
  ⟨(handleApplyToProject_duplicate "coder-1" ⟨"23505"⟩).1 rfl,
   (handleApplyToProject_duplicate "coder-1" ⟨"500"⟩).2.1 (by decide),
   (handleApplyToProject_duplicate "coder-1" ⟨"23505"⟩).2.2.2⟩

/-- C3: a realtime insert notification whose `conversation_id` equals the
open conversation makes the client re-fetch that row and append it to the
local list with no de-duplication check; a notification for any other (or no)
open conversation leaves the state untouched. -/
theorem onMessageInsert_spec (payloadNew : MessageRow) (m : Message)
    (resp : Except DbError Message) (st : MessagesState) :
    (st.selectedConversation = some payloadNew.conversation_id →
      (onMessageInsert payloadNew (.ok m) st).1.messages = st.messages ++ [m] ∧
      (onMessageInsert payloadNew (.ok m) st).2 = [Effect.selectRequest "messages"]) ∧
    (st.selectedConversation ≠ some payloadNew.conversation_id →
      (onMessageInsert payloadNew resp st).1 = st ∧
      (onMessageInsert payloadNew resp st).2 = []) := by
  constructor
  · intro h
    simp [onMessageInsert, h, fetchMessage]
  · intro h
    have hguard : ((some payloadNew.conversation_id : Option String) ==
        st.selectedConversation) = false := by
      rw [beq_eq_false_iff_ne]
      exact fun hh => h hh.symm
    simp [onMessageInsert, hguard]

/-- Witness for C3: a matching notification appends even a message that is
already present (state `stA` already holds `msgA`). -/
theorem onMessageInsert_spec_witness :
    (onMessageInsert rowA (.ok msgA) stA).1.messages = stA.messages ++ [msgA] ∧
    (onMessageInsert rowA (.ok msgA) { stA with selectedConversation := some "c2" }).1
      = { stA with selectedConversation := some "c2" } :=
  ⟨((onMessageInsert_spec rowA msgA (.ok msgA) stA).1 rfl).1,
   ((onMessageInsert_spec rowA msgA (.ok msgA)
      { stA with selectedConversation := some "c2" }).2 (by decide)).1⟩

/-- C4: invoking `sendMessage` with an empty or whitespace-only input field is
a no-op: the state is returned unchanged and no effect (in particular no
insert request) is performed, for every backend response and every user. -/
theorem sendMessage_whitespace_noop (user : Option String)
    (insertResp : Option DbError) (st : MessagesState)
    (hws : st.newMessage.data.all jsIsWhitespace = true) :
    sendMessage user insertResp st = (st, []) := by
  have h := jsTrim_eq_empty hws
  simp [sendMessage, h]

/-- Witness for C4 on the whitespace-only input `"  \t "`. -/
theorem sendMessage_whitespace_noop_witness :
    sendMessage (some "alice") (some ⟨"500"⟩) { stMsg with newMessage := "  \t " } =
      ({ stMsg with newMessage := "  \t " }, []) :=
  sendMessage_whitespace_noop (some "alice") (some ⟨"500"⟩)
    { stMsg with newMessage := "  \t " } (by decide)

/-- C5: selecting a conversation replaces the displayed message list with the
fetched rows, independently of whatever was displayed before (and records the
selection); on a failed load the old list is kept as-is, never merged. -/
theorem selectConversation_replaces (conversationId : String) (e : DbError)
    (data : List Message) (st : MessagesState) :
    (selectConversation conversationId (.ok data) st).1.messages = data ∧
    (selectConversation conversationId (.ok data) st).1.selectedConversation =
      some conversationId ∧
    (selectConversation conversationId (.error e) st).1.messages = st.messages :=
  ⟨rfl, rfl, rfl⟩

/-- Counterexample to C6: with conversation `c1` open and the sorted list
`[msgA, msgB]` displayed, the realtime append of `msgA` (a delayed duplicate
notification) yields `[msgA, msgB, msgA]`, which is no longer sorted by
`created_at`. -/
theorem realtime_append_unsorted :
    isSortedBy msgLe stA.messages = true ∧
    (onMessageInsert rowA (.ok msgA) stA).1.messages = [msgA, msgB, msgA] ∧
    isSortedBy msgLe (onMessageInsert rowA (.ok msgA) stA).1.messages = false := by
  refine ⟨by decide, by decide, by decide⟩

/-- C6 as amended: `loadMessages` requests the rows sorted ascending by
`created_at`, so a freshly loaded list is sorted; a realtime append keeps the
list sorted only when the appended message's `created_at` is at least that of
every message already displayed (the handler performs no reordering). -/
theorem message_ordering (table : List Message) (conversationId messageId : String)
    (st st2 : MessagesState) (m : Message)
    (hs : isSortedBy msgLe st2.messages = true)
    (hle : ∀ x ∈ st2.messages, x.created_at ≤ m.created_at) :
    isSortedBy msgLe
      (loadMessages conversationId (.ok (queryMessages table conversationId)) st).1.messages
      = true ∧
    isSortedBy msgLe (fetchMessage messageId (.ok m) st2).1.messages = true := by
  constructor
  · show isSortedBy msgLe (queryMessages table conversationId) = true
    exact isSortedBy_sortBy msgLe
      (fun a b => by simpa [msgLe] using Nat.le_total a.created_at b.created_at) _
  · show isSortedBy msgLe (st2.messages ++ [m]) = true
    exact isSortedBy_append_singleton msgLe st2.messages m hs
      (fun x hx => by simpa [msgLe] using hle x hx)

/-- Witness for C6 as amended: loading `c1` from a table holding `msgB` and
`msgA` out of order yields a sorted list, and appending the newer `msgB` to
the sorted list `[msgA]` keeps it sorted. -/
theorem message_ordering_witness :
    isSortedBy msgLe
      (loadMessages "c1" (.ok (queryMessages [msgB, msgA] "c1")) st0).1.messages = true ∧
    isSortedBy msgLe (fetchMessage "m2" (.ok msgB) { st0 with messages := [msgA] }).1.messages
      = true :=
  message_ordering [msgB, msgA] "c1" "m2" st0 { st0 with messages := [msgA] } msgB
    (by decide) (by decide)

/-- Counterexample to C7: several remote calls log their failure to the
console but show no toast at all — `handleFollow`, `fetchMessage` and
`fetchCoders` each produce a console log and an empty toast list on failure. -/
theorem remote_failure_without_toast :
    Effect.consoleError "Error following user" ∈ handleFollow (some "alice") (some ⟨"500"⟩) ∧
    toastsOf (handleFollow (some "alice") (some ⟨"500"⟩)) = [] ∧
    Effect.consoleError "Error fetching message" ∈ (fetchMessage "m1" (.error ⟨"500"⟩) st0).2 ∧
    toastsOf (fetchMessage "m1" (.error ⟨"500"⟩) st0).2 = [] ∧
    Effect.consoleError "Error fetching coders" ∈ (fetchCoders (.error ⟨"500"⟩) bst0).2 ∧
    toastsOf (fetchCoders (.error ⟨"500"⟩) bst0).2 = [] := by
  refine ⟨by decide, by decide, by decide, by decide, by decide, by decide⟩

/-- C7 as amended: a remote call's failure never retries (a single backend
request per invocation) and returns no error value to calling code
(`fetchProjectApplications` degrades to the empty list); every failing call
except `handleApplyToProject` produces exactly one console log, of which only
`fetchConversations`, `loadMessages`, `sendMessage` and `fetchProjects` add a
generic toast while the rest show no user-facing message at all;
`handleApplyToProject` alone shows only a toast — special-cased on code
`23505` — and writes nothing to the console. -/
theorem uniform_error_handling (e : DbError) (u : String) (st : MessagesState)
    (bst : BrowseState) (pst : ProjectsState)
    (messageId conversationId projectId : String)
    (hne : (jsTrim st.newMessage == "") = false)
    (hsel : st.selectedConversation.isNone = false) :
    (fetchConversations (some u) (.error e) st).2 =
      [Effect.selectRequest "conversations", Effect.consoleError "Error fetching conversations",
       Effect.toastError "Failed to load conversations"] ∧
    (fetchMessage messageId (.error e) st).2 =
      [Effect.selectRequest "messages", Effect.consoleError "Error fetching message"] ∧
    (loadMessages conversationId (.error e) st).2 =
      [Effect.selectRequest "messages", Effect.consoleError "Error loading messages",
       Effect.toastError "Failed to load messages"] ∧
    (sendMessage (some u) (some e) st).2 =
      [Effect.insertRequest "messages", Effect.consoleError "Error sending message",
       Effect.toastError "Failed to send message"] ∧
    (fetchCoders (.error e) bst).2 =
      [Effect.selectRequest "profiles", Effect.consoleError "Error fetching coders"] ∧
    (fetchTeams (.error e) bst).2 =
      [Effect.selectRequest "teams", Effect.consoleError "Error fetching teams"] ∧
    handleFollow (some u) (some e) =
      [Effect.insertRequest "follows", Effect.consoleError "Error following user"] ∧
    (fetchProjects (.error e) pst).2 =
      [Effect.selectRequest "projects", Effect.consoleError "Error fetching projects",
       Effect.toastError "Failed to load projects"] ∧
    (fetchMyProjects (some u) (.error e) pst).2 =
      [Effect.selectRequest "projects", Effect.consoleError "Error fetching my projects"] ∧
    handleApplyToProject (some u) (some e) =
      (if e.code == "23505" then
        [Effect.insertRequest "project_applications",
         Effect.toastError "You have already applied to this project"]
       else
        [Effect.insertRequest "project_applications",
         Effect.toastError "Failed to apply to project"]) ∧
    (fetchMyApplications (some u) (.error e) pst).2 =
      [Effect.selectRequest "project_applications",
       Effect.consoleError "Error fetching applications"] ∧
    (fetchProjectApplications projectId (.error e)).1 = [] ∧
    (fetchProjectApplications projectId (.error e)).2 =
      [Effect.selectRequest "project_applications",
       Effect.consoleError "Error fetching project applications"] ∧
    (∀ s, Effect.consoleError s ∉ handleApplyToProject (some u) (some e)) := by
  refine ⟨rfl, rfl, rfl, ?_, rfl, rfl, rfl, rfl, rfl, rfl, rfl, rfl, rfl, ?_⟩
  · simp [sendMessage, hne, hsel]
  · intro s
    by_cases h : e.code = "23505" <;> simp [handleApplyToProject, h]

/-- Witness for C7 as amended at a concrete failing send. -/
theorem uniform_error_handling_witness :
    (sendMessage (some "alice") (some ⟨"500"⟩) stMsg).2 =
      [Effect.insertRequest "messages", Effect.consoleError "Error sending message",
       Effect.toastError "Failed to send message"] :=
  (uniform_error_handling ⟨"500"⟩ "alice" stMsg bst0 pst0 "m1" "c1" "p1"
    (by decide) (by decide)).2.2.2.1

/-- C8: the browse tab's `fetchProjects` queries only rows with status
`open`, so no stored browse project is `in_progress`, `completed` or
`cancelled`. -/
theorem fetchProjects_only_open (table : List ProjectRow) (st : ProjectsState)
    (p : ProjectRow)
    (hp : p ∈ (fetchProjects (.ok (queryOpenProjects table)) st).1.projects) :
    p.status = "open" ∧ p.status ≠ "in_progress" ∧ p.status ≠ "completed" ∧
      p.status ≠ "cancelled" := by
  have h1 : p ∈ queryOpenProjects table := hp
  rw [queryOpenProjects, mem_sortBy] at h1
  have h2 := (List.mem_filter.mp h1).2
  have h3 : p.status = "open" := by simpa using h2
  refine ⟨h3, ?_, ?_, ?_⟩ <;> simp [h3]

/-- Witness for C8: fetching from a table holding an open and a completed
project keeps the open one, and it is in none of the closed states. -/
theorem fetchProjects_only_open_witness :
    projOpen.status = "open" ∧ projOpen.status ≠ "in_progress" ∧
      projOpen.status ≠ "completed" ∧ projOpen.status ≠ "cancelled" :=
  fetchProjects_only_open [projDone, projOpen] pst0 projOpen (by decide)

/-- C9: two Browse states that agree on the stored coders, teams and search
term — but may differ in the selected skill filter — render identical coder
and team card lists: the skill filter is never consulted. -/
theorem skillFilter_noninterference (s1 s2 : BrowseState)
    (hc : s1.coders = s2.coders) (ht : s1.teams = s2.teams)
    (hs : s1.searchTerm = s2.searchTerm) :
    displayedCoders s1 = displayedCoders s2 ∧ displayedTeams s1 = displayedTeams s2 := by
  constructor <;> simp [displayedCoders, displayedTeams, hc, ht, hs]

/-- A sample coder profile. -/
def coderDana : Profile :=
  { id := "u1", full_name := "Dana Devlin", bio := some "React and Node dev"
    location := some "Lisbon", role := "coder", xp := 120, followers_count := 3 }

/-- A sample team. -/
def teamRocket : Team :=
  { id := "t1", name := "Rocket Crew", description := some "Full-stack team"
    created_at := 2021, owner := coderDana }

/-- Witness for C9: the same data and search term under skill filters `all`
and `react` render the same cards. -/
theorem skillFilter_noninterference_witness :
    displayedCoders
        { coders := [coderDana], teams := [teamRocket], loading := false
          searchTerm := "dev", skillFilter := "all" } =
      displayedCoders
        { coders := [coderDana], teams := [teamRocket], loading := false
          searchTerm := "dev", skillFilter := "react" } ∧
    displayedTeams
        { coders := [coderDana], teams := [teamRocket], loading := false
          searchTerm := "dev", skillFilter := "all" } =
      displayedTeams
        { coders := [coderDana], teams := [teamRocket], loading := false
          searchTerm := "dev", skillFilter := "react" } :=
  skillFilter_noninterference _ _ rfl rfl rfl

/-- C10: when the guards pass (non-blank input, a conversation selected, a
signed-in user), `sendMessage` clears the input exactly on a successful
insert: a failed insert leaves the whole state (hence the input) unchanged
and shows the error toast, while a successful insert resets the input to the
empty string. -/
theorem sendMessage_clear_iff_success (u : String) (e : DbError) (st : MessagesState)
    (hne : (jsTrim st.newMessage == "") = false)
    (hsel : st.selectedConversation.isNone = false) :
    (sendMessage (some u) (some e) st).1.newMessage = st.newMessage ∧
    (sendMessage (some u) (some e) st).1 = st ∧
    Effect.toastError "Failed to send message" ∈ (sendMessage (some u) (some e) st).2 ∧
    (sendMessage (some u) none st).1.newMessage = "" := by
  have h4 : sendMessage (some u) (some e) st =
      (st, [Effect.insertRequest "messages", Effect.consoleError "Error sending message",
            Effect.toastError "Failed to send message"]) := by
    simp [sendMessage, hne, hsel]
  have h5 : sendMessage (some u) none st =
      ({ st with newMessage := "" }, [Effect.insertRequest "messages"]) := by
    simp [sendMessage, hne, hsel]
  rw [h4, h5]
  simp

/-- Witness for C10 on the draft `"hello"`. -/
theorem sendMessage_clear_iff_success_witness :
    (sendMessage (some "alice") (some ⟨"500"⟩) stMsg).1.newMessage = stMsg.newMessage ∧
    (sendMessage (some "alice") none stMsg).1.newMessage = "" :=
  ⟨(sendMessage_clear_iff_success "alice" ⟨"500"⟩ stMsg (by decide) (by decide)).1,
   (sendMessage_clear_iff_success "alice" ⟨"500"⟩ stMsg (by decide) (by decide)).2.2.2⟩

end Kodr
